import Mathlib

/-!
Verification development for the flash-sale coordination service
(Go repository `flash`).  The definitions below are shallow embeddings
of the Go source: the Redis repository (internal/repository/redis),
the Postgres repository (internal/repository/postgres), the service
layer (internal/service) and the HTTP handler error mapping
(internal/handler/http).  Identifier strings, key layouts, error
messages and numeric constants are taken verbatim from the source.
-/

/-! ### Characters and strings

Go strings are modelled as lists of characters so that splitting and
prefix reasoning can proceed by structural induction.  String literals
from the source are converted with `String.data`.
-/

abbrev Chars := List Char

/-! ### Redis key layout

Key rendering follows the `fmt.Sprintf` calls in
internal/repository/redis/redisrepo.go.
-/

/-- Key `reservations:global` — the global reservation sorted set. -/
def keyGlobal : Chars := ("reservations:global").data

/-- Key `reservations:user:` followed by the user id — per-user reservation set. -/
def keyUser (userID : Chars) : Chars := ("reservations:user:").data ++ userID

/-- Key `item_reservation:` followed by the item id — the item lock. -/
def keyItem (itemID : Chars) : Chars := ("item_reservation:").data ++ itemID

/-- Key `item_sold:` followed by the item id — the permanent sold marker. -/
def keySold (itemID : Chars) : Chars := ("item_sold:").data ++ itemID

/-- Key `user_purchases:` followed by the user id — the user purchase counter. -/
def keyPurchases (userID : Chars) : Chars := ("user_purchases:").data ++ userID

/-- Key `reservation:` followed by the code — the reservation record. -/
def keyRes (code : Chars) : Chars := ("reservation:").data ++ code

/-- The reservation record value written by `CreateReservation`:
`fmt.Sprintf("%s|%s", userID, itemID)`. -/
def encodeReservation (userID itemID : Chars) : Chars :=
  userID ++ '|' :: itemID

/-- `strings.Split(val, "|")` for the one-character separator `"|"`,
modelled on lists of characters. -/
def splitPipe : Chars → List Chars
  | [] => [[]]
  | c :: rest =>
    if c = '|' then [] :: splitPipe rest
    else
      match splitPipe rest with
      | [] => [[c]]
      | p :: ps => (c :: p) :: ps

/-! ### Association-list lookup (shared by the Redis and DB models) -/

/-- Lookup in an association list keyed by character lists. -/
def lookupKV {α : Type} : List (Chars × α) → Chars → Option α
  | [], _ => none
  | (k, v) :: rest, key => if k = key then some v else lookupKV rest key

/-- Insert or overwrite a binding (Redis `SET` semantics). -/
def setKV {α : Type} (st : List (Chars × α)) (key : Chars) (v : α) :
    List (Chars × α) :=
  (key, v) :: st.filter (fun kv => kv.1 ≠ key)

/-- Delete a binding (Redis `DEL` semantics). -/
def delKV {α : Type} (st : List (Chars × α)) (key : Chars) :
    List (Chars × α) :=
  st.filter (fun kv => kv.1 ≠ key)

/-! ### Redis state

The live Redis keyspace, split by value shape: plain string keys
(item locks, reservation records, sold markers), sorted sets
(score–member pairs, score = expiry epoch seconds), and integer
keys (the user purchase counters, driven by `INCR` / `.Int64()`,
which reads a missing key as 0).  A key that is present is live;
TTL expiry and deletion both remove the binding.
-/

structure RedisState where
  strs : List (Chars × Chars)
  zsets : List (Chars × List (Int × Chars))
  ints : List (Chars × Int)
deriving DecidableEq

/-- The empty keyspace. -/
def RedisState.empty : RedisState := ⟨[], [], []⟩

/-- `ZCARD`: cardinality of a sorted set (0 when the key is absent). -/
def RedisState.zcard (st : RedisState) (key : Chars) : Nat :=
  ((lookupKV st.zsets key).getD []).length

/-- `ZADD`: append a score–member pair to a sorted set. -/
def RedisState.zadd (st : RedisState) (key : Chars) (score : Int)
    (member : Chars) : RedisState :=
  ⟨st.strs,
   setKV st.zsets key (((lookupKV st.zsets key).getD []) ++ [(score, member)]),
   st.ints⟩

/-- `EXISTS` on a string key, as the `tx.Exists(...).Val() == 1` checks use it. -/
def RedisState.existsStr (st : RedisState) (key : Chars) : Bool :=
  (lookupKV st.strs key).isSome

/-- `GET ... .Int64()`: integer value of a key, 0 when absent. -/
def RedisState.getInt (st : RedisState) (key : Chars) : Int :=
  (lookupKV st.ints key).getD 0

/-! ### Redis repository operations (internal/repository/redis/redisrepo.go) -/

/-- The keys passed to `r.client.Watch` in `CreateReservation`:
`itemKey, soldItemKey, userPurchaseCountKey` — exactly these three. -/
def watchedKeys (userID itemID : Chars) : List Chars :=
  [keyItem itemID, keySold itemID, keyPurchases userID]

/-- The keys whose values the check phase of the `CreateReservation`
transaction function reads: the sold marker and item lock (`Exists`),
the global and per-user sorted sets (`ZCard`), and the user purchase
counter (`Get ... .Int64()`). -/
def readKeys (userID itemID : Chars) : List Chars :=
  [keySold itemID, keyItem itemID, keyGlobal, keyPurchases userID,
   keyUser userID]

/-- The check phase of the `CreateReservation` transaction function
(`txf`), in source order; returns the error message of the first
failing check, or `none` when every check passes. -/
def txfCheck (st : RedisState) (userID itemID : Chars) : Option String :=
  if st.existsStr (keySold itemID) then
    some "item has already been sold"
  else if st.existsStr (keyItem itemID) then
    some "item already reserved"
  else if st.zcard keyGlobal ≥ 10000 then
    some "sale completed, items sold out"
  else if st.getInt (keyPurchases userID) ≥ 10 then
    some "purchase limit of 10 items exceeded for this user"
  else if st.zcard (keyUser userID) ≥ 10 then
    some "concurrent reservation limit exceeded for this user"
  else
    none

/-- The write phase of the transaction (`TxPipelined`): `SETEX` on the
item lock, `ZADD` on the global and user sets with score `expireAt`,
and `SET` of the reservation record `code → "userID|itemID"`. -/
def txfWrites (st : RedisState) (userID itemID code : Chars)
    (expireAt : Int) : RedisState :=
  let st1 : RedisState :=
    ⟨setKV st.strs (keyItem itemID) code, st.zsets, st.ints⟩
  let st2 := st1.zadd keyGlobal expireAt code
  let st3 := st2.zadd (keyUser userID) expireAt code
  ⟨setKV st3.strs (keyRes code) (encodeReservation userID itemID),
   st3.zsets, st3.ints⟩

/-- One `Watch` attempt of `CreateReservation`.  `conflict` tells
whether another client modified a watched key between the reads and
the commit (go-redis then yields `TxFailedErr`, modelled as the
`conflictResult` marker).  Otherwise the attempt returns the check
error or commits the writes. -/
inductive AttemptResult where
  | committed (st : RedisState)
  | failed (msg : String)
  | conflictResult
deriving DecidableEq

def createAttempt (st : RedisState) (userID itemID code : Chars)
    (expireAt : Int) (conflict : Bool) : AttemptResult :=
  match txfCheck st userID itemID with
  | some msg => .failed msg
  | none =>
    if conflict then .conflictResult
    else .committed (txfWrites st userID itemID code expireAt)

/-- The retry loop of `CreateReservation`: `for i := 0; i < 3; i++`.
Each element of `attempts` is the keyspace observed by that attempt
together with its conflict flag (concurrent interference may change
the state between attempts).  A conflict (`TxFailedErr`) continues
the loop; any other error is returned at once; after three conflicted
attempts the call fails with the retries-exhausted message.  On
success the resulting keyspace is returned. -/
def createReservationLoop (userID itemID code : Chars) (expireAt : Int) :
    Nat → List (RedisState × Bool) → Except String RedisState
  | 0, _ => .error "item reservation failed after retries"
  | _ + 1, [] => .error "item reservation failed after retries"
  | n + 1, (st, conflict) :: rest =>
    match createAttempt st userID itemID code expireAt conflict with
    | .committed st' => .ok st'
    | .failed msg => .error msg
    | .conflictResult => createReservationLoop userID itemID code expireAt n rest

/-- `RedisRepository.CreateReservation`: three watch attempts. -/
def redisCreateReservation (userID itemID code : Chars) (expireAt : Int)
    (attempts : List (RedisState × Bool)) : Except String RedisState :=
  createReservationLoop userID itemID code expireAt 3 attempts

/-- `RedisRepository.GetReservation`: read `reservation:code`; a miss
is "Reservation not found or expired"; the value must split on `"|"`
into exactly two fields. -/
def redisGetReservation (st : RedisState) (code : Chars) :
    Except String (Chars × Chars) :=
  match lookupKV st.strs (keyRes code) with
  | none => .error "Reservation not found or expired"
  | some val =>
    match splitPipe val with
    | [u, i] => .ok (u, i)
    | _ => .error "invalid reservation data format"

/-- `RedisRepository.DeleteReservation`: `DEL` the item lock and the
reservation record, then `ZREM` the code from the global and user sets. -/
def redisDeleteReservation (st : RedisState) (userID itemID code : Chars) :
    RedisState :=
  let strs1 := delKV (delKV st.strs (keyItem itemID)) (keyRes code)
  let zrem := fun (zs : List (Int × Chars)) =>
    zs.filter (fun m => m.2 ≠ code)
  let zs1 := match lookupKV st.zsets keyGlobal with
    | none => st.zsets
    | some ms => setKV st.zsets keyGlobal (zrem ms)
  let zs2 := match lookupKV zs1 (keyUser userID) with
    | none => zs1
    | some ms => setKV zs1 (keyUser userID) (zrem ms)
  ⟨strs1, zs2, st.ints⟩

/-- A key matches the `SCAN` glob `pre*` exactly when `pre` is a
literal prefix of it (the three reset patterns end in a single `*`
and contain no other metacharacter). -/
def globMatch (pre key : Chars) : Bool := pre.isPrefixOf key

/-- The three patterns scanned by `ResetAllReservations`, without their
trailing `*`. -/
def resetPatterns : List Chars :=
  [("reservations:user:").data, ("reservation:").data,
   ("item_reservation:").data]

/-- A key is deleted by `ResetAllReservations` iff it matches one of the
scan patterns or is the explicitly deleted `reservations:global`. -/
def resetDeletes (key : Chars) : Bool :=
  resetPatterns.any (fun pre => globMatch pre key) || key = keyGlobal

/-- `RedisRepository.ResetAllReservations`: pipeline of `DEL`s over the
scan results plus `DEL reservations:global`, applied to every part of
the keyspace. -/
def redisResetAllReservations (st : RedisState) : RedisState :=
  ⟨st.strs.filter (fun kv => ¬ resetDeletes kv.1),
   st.zsets.filter (fun kv => ¬ resetDeletes kv.1),
   st.ints.filter (fun kv => ¬ resetDeletes kv.1)⟩

/-- `RedisRepository.MarkItemAsSold`: `SET item_sold:itemID "sold"` with
no expiration. -/
def redisMarkItemAsSold (st : RedisState) (itemID : Chars) : RedisState :=
  ⟨setKV st.strs (keySold itemID) ("sold").data, st.zsets, st.ints⟩

/-- `RedisRepository.IncrementUserPurchaseCount`: `INCR user_purchases:userID`. -/
def redisIncrementUserPurchaseCount (st : RedisState) (userID : Chars) :
    Int × RedisState :=
  let n := st.getInt (keyPurchases userID) + 1
  (n, ⟨st.strs, st.zsets, setKV st.ints (keyPurchases userID) n⟩)

/-! ### Durable sales store (internal/repository/postgres/dbrepo.go)

Timestamps are epoch seconds as integers.  `time.Truncate(time.Hour)`
on a post-epoch instant truncates to the hour.
-/

inductive SaleStatus where
  | pending
  | confirmed
deriving DecidableEq

structure SaleRow where
  userId : Chars
  itemId : Chars
  status : SaleStatus
  purchasedAt : Int
  committedAt : Option Int
deriving DecidableEq

structure AttemptRow where
  userId : Chars
  itemId : Chars
  code : Chars
  createdAt : Int
  used : Bool
deriving DecidableEq

structure DbState where
  sales : List SaleRow
  attempts : List AttemptRow
deriving DecidableEq

/-- `now.Truncate(time.Hour)` on epoch seconds. -/
def truncateHour (t : Int) : Int := t / 3600 * 3600

/-- The `WHERE status = 'pending' AND purchased_at >= $1 AND
purchased_at < $2` predicate shared by the three statements of
`FinalizeSales`. -/
def pendingInWindow (s e : Int) (r : SaleRow) : Bool :=
  r.status == SaleStatus.pending
    && decide (s ≤ r.purchasedAt) && decide (r.purchasedAt < e)

/-- The `SELECT COUNT(*)` statement of `FinalizeSales`. -/
def sqlCountPending (s e : Int) (tbl : List SaleRow) : Nat :=
  (tbl.filter (pendingInWindow s e)).length

/-- A row after the `UPDATE sales SET status = 'confirmed',
committed_at = now()` statement touches it. -/
def confirmRow (now : Int) (r : SaleRow) : SaleRow :=
  SaleRow.mk r.userId r.itemId SaleStatus.confirmed r.purchasedAt (some now)

/-- The `UPDATE ... WHERE` statement of the confirm branch. -/
def sqlConfirmPending (s e now : Int) (tbl : List SaleRow) : List SaleRow :=
  tbl.map (fun r => if pendingInWindow s e r then confirmRow now r else r)

/-- The `DELETE FROM sales WHERE` statement of the cancel branch. -/
def sqlDeletePending (s e : Int) (tbl : List SaleRow) : List SaleRow :=
  tbl.filter (fun r => ¬ pendingInWindow s e r)

/-- `PostgresRepository.FinalizeSales`, run at instant `now` as one
transaction over the sales table: count the pending rows of the
previous whole hour, confirm them all when the count is exactly 10000,
delete them all otherwise, and return the pre-transition count. -/
def pgFinalizeSales (now : Int) (tbl : List SaleRow) :
    Nat × List SaleRow :=
  let s := truncateHour now - 3600
  let e := s + 3600
  let cnt := sqlCountPending s e tbl
  if cnt = 10000 then (cnt, sqlConfirmPending s e now tbl)
  else (cnt, sqlDeletePending s e tbl)

/-- `PostgresRepository.ProcessPurchase`: one transaction inserting a
pending sales row (`purchased_at` defaults to `NOW()`) and marking the
checkout attempt with this code as used. -/
def pgProcessPurchaseDb (now : Int) (userID itemID code : Chars)
    (db : DbState) : DbState :=
  DbState.mk (db.sales ++ [SaleRow.mk userID itemID SaleStatus.pending now none])
    (db.attempts.map (fun a =>
      if a.code = code then AttemptRow.mk a.userId a.itemId a.code a.createdAt true
      else a))

/-! ### Status counters (internal/service, Status struct) -/

structure Status where
  successfulCheckouts : Nat
  failedCheckouts : Nat
  successfulPurchases : Nat
  failedPurchases : Nat
  scheduledGoods : Nat
  purchasedGoods : Nat
  saleCompleted : Bool
deriving DecidableEq

/-- `NewStatus()`: all counters zero, flag down. -/
def Status.init : Status := ⟨0, 0, 0, 0, 0, 0, false⟩

/-- `Status.SetSaleCompleted`. -/
def Status.setSaleCompleted (st : Status) (val : Bool) : Status :=
  ⟨st.successfulCheckouts, st.failedCheckouts, st.successfulPurchases,
   st.failedPurchases, st.scheduledGoods, st.purchasedGoods, val⟩

/-- `Status.Reset`: stores zero into every counter and into the
`saleCompleted` word. -/
def Status.reset (_ : Status) : Status := ⟨0, 0, 0, 0, 0, 0, false⟩

/-- `Status.IsSaleCompleted`. -/
def Status.isSaleCompleted (st : Status) : Bool := st.saleCompleted

/-- `Status.SaleStatusText`. -/
def Status.saleStatusText (st : Status) : String :=
  if st.isSaleCompleted then "completed" else "active"

/-! ### Service layer (internal/service, FlashSaleService)

The coordinator is embedded oracle-style: the outcome of each
repository call is an input (`none` = success, `some msg` = the call
failed with that message), and every execution returns its result
together with the trace of repository calls it made, each call
carrying the Go context it was given.
-/

/-- A Go `context.Context`, abstracted to its cancellation state.  A
fresh background context with its own deadline would carry
`cancelled = false` regardless of the request context. -/
structure GoCtx where
  cancelled : Bool
deriving DecidableEq

/-- One repository call made by the service layer, with the context it
received. -/
inductive Call where
  | redisCreate (c : GoCtx) (userID itemID code : Chars)
  | pgSave (c : GoCtx) (userID itemID code : Chars)
  | redisDelete (c : GoCtx) (userID itemID code : Chars)
  | redisGet (c : GoCtx) (code : Chars)
  | pgPurchase (c : GoCtx) (userID itemID code : Chars)
  | redisMarkSold (c : GoCtx) (itemID : Chars)
  | redisIncr (c : GoCtx) (userID : Chars)
deriving DecidableEq

/-- `FlashSaleService.CreateReservation` with the generated `code` and
the outcomes of the two store calls as oracle inputs.  Every store
call receives `ctx`, the request context, unchanged — the source
passes the same `ctx` to the compensating `DeleteReservation`. -/
def svcCreateReservation (ctx : GoCtx) (st : Status)
    (userID itemID code : Chars)
    (redisResult : Option String) (pgResult : Option String) :
    Except String Chars × List Call :=
  if st.isSaleCompleted then
    (.error "sale completed, items sold out", [])
  else
    match redisResult with
    | some e => (.error e, [Call.redisCreate ctx userID itemID code])
    | none =>
      match pgResult with
      | some e =>
        (.error ("failed to save checkout attempt: " ++ e),
         [Call.redisCreate ctx userID itemID code,
          Call.pgSave ctx userID itemID code,
          Call.redisDelete ctx userID itemID code])
      | none =>
        (.ok code,
         [Call.redisCreate ctx userID itemID code,
          Call.pgSave ctx userID itemID code])

/-- `FlashSaleService.ProcessPurchase`: get the reservation, delete it,
persist the purchase, then best-effort mark-sold and counter
increment (whose failures are only logged).  The DB state is threaded
to record when the durable store is written. -/
def svcProcessPurchase (ctx : GoCtx) (code : Chars)
    (getResult : Except String (Chars × Chars))
    (delResult : Option String) (pgResult : Option String)
    (now : Int) (db : DbState) :
    Except String (Chars × Chars) × DbState × List Call :=
  match getResult with
  | .error e => (.error e, db, [Call.redisGet ctx code])
  | .ok (userID, itemID) =>
    match delResult with
    | some e =>
      (.error ("failed to delete reservation: " ++ e), db,
       [Call.redisGet ctx code, Call.redisDelete ctx userID itemID code])
    | none =>
      match pgResult with
      | some e =>
        (.error ("failed to process purchase in db: " ++ e), db,
         [Call.redisGet ctx code, Call.redisDelete ctx userID itemID code,
          Call.pgPurchase ctx userID itemID code])
      | none =>
        (.ok (userID, itemID), pgProcessPurchaseDb now userID itemID code db,
         [Call.redisGet ctx code, Call.redisDelete ctx userID itemID code,
          Call.pgPurchase ctx userID itemID code,
          Call.redisMarkSold ctx itemID, Call.redisIncr ctx userID])

/-- `true` on the `pgPurchase` constructor. -/
def Call.isPgPurchase : Call → Bool
  | .pgPurchase _ _ _ _ => true
  | _ => false

/-- `true` on the `redisDelete` constructor. -/
def Call.isRedisDelete : Call → Bool
  | .redisDelete _ _ _ _ => true
  | _ => false

/-- Scans a trace: `true` iff no `pgPurchase` call occurs before the
first `redisDelete` call (so the K/V delete strictly precedes any DB
purchase write). -/
def delBeforePg : List Call → Bool
  | [] => true
  | c :: rest =>
    if c.isPgPurchase then false
    else if c.isRedisDelete then true
    else delBeforePg rest

/-- `FlashSaleService.finalizeSales`: on DB success set the
`saleCompleted` flag from the 10000 comparison, then `Status.Reset`,
then reset the transient Redis keys (a Redis failure is only logged). -/
def svcFinalizeSales (dbResult : Except String Nat) (st : Status)
    (kv : RedisState) : Except String (Status × RedisState) :=
  match dbResult with
  | .error e => .error ("db finalization failed: " ++ e)
  | .ok pendingCount =>
    let st1 := st.setSaleCompleted (pendingCount == 10000)
    let st2 := st1.reset
    .ok (st2, redisResetAllReservations kv)

/-! ### HTTP checkout error mapping (internal/handler/http) -/

/-- model.go: `ErrItemReserved`. -/
def errItemReserved : String := "item already reserved"

/-- model.go: `ErrPurchaseLimitExceeded`. -/
def errPurchaseLimitExceeded : String := "purchase limit exceeded for this user"

/-- model.go: `ErrSaleSoldOut`. -/
def errSaleSoldOut : String := "sale completed, items sold out"

/-- model.go: `ErrReservationNotFound`. -/
def errReservationNotFound : String := "Reservation not found or expired"

/-- model.go: `ErrInternalServer`. -/
def errInternalServer : String := "Internal server error"

/-- Modelled from the spec: `ErrItemAlreadySold` is referenced by
`handleCheckout` but its definition is not among the provided source
files; spec scenario 1 gives the message "item has already been sold". -/
def errItemAlreadySold : String := "item has already been sold"

/-- Modelled from the spec: `ErrConcurrentReservationExceeded` is
referenced by `handleCheckout` but its definition is not among the
provided source files; spec scenario 3 gives the message
"concurrent reservation limit exceeded for this user". -/
def errConcurrentReservationExceeded : String :=
  "concurrent reservation limit exceeded for this user"

/-- The `switch err.Error()` of `handleCheckout`: the five listed
messages map to HTTP 400 with the message itself; everything else maps
to HTTP 500 with the literal internal-server body. -/
def checkoutErrorResponse (msg : String) : Nat × String :=
  if msg = errItemReserved ∨ msg = errSaleSoldOut ∨ msg = errItemAlreadySold
      ∨ msg = errPurchaseLimitExceeded ∨ msg = errConcurrentReservationExceeded
  then (400, msg)
  else (500, errInternalServer)

/-- The error message produced by the user-total-limit check of the
Redis repository (`purchasedCount >= 10`). -/
def msgUserTotalLimit : String := "purchase limit of 10 items exceeded for this user"

/-! ### Helper lemmas -/

theorem splitPipe_no_pipe (l : Chars) (h : '|' ∉ l) : splitPipe l = [l] := by
  induction l with
  | nil => rfl
  | cons c cs ih =>
    have hc : ¬ c = '|' := fun e => h (e ▸ List.mem_cons_self c cs)
    have hcs : '|' ∉ cs := fun m => h (List.mem_cons_of_mem c m)
    simp [splitPipe, hc, ih hcs]

theorem splitPipe_append (u v : Chars) (hu : '|' ∉ u) :
    splitPipe (u ++ '|' :: v) = u :: splitPipe v := by
  induction u with
  | nil => simp [splitPipe]
  | cons c cs ih =>
    have hc : ¬ c = '|' := fun e => hu (e ▸ List.mem_cons_self c cs)
    have hcs : '|' ∉ cs := fun m => hu (List.mem_cons_of_mem c m)
    simp [splitPipe, hc, ih hcs]

theorem splitPipe_length (l : Chars) :
    (splitPipe l).length = l.count '|' + 1 := by
  induction l with
  | nil => simp [splitPipe]
  | cons c cs ih =>
    by_cases hc : c = '|'
    · subst hc
      simp [splitPipe, List.count_cons, ih]
    · simp only [splitPipe, if_neg hc]
      cases hsp : splitPipe cs with
      | nil => rw [hsp] at ih; simp at ih
      | cons p ps =>
        rw [hsp] at ih
        simp [List.count_cons, hc] at ih ⊢
        omega

theorem encodeReservation_count (u i : Chars) :
    (encodeReservation u i).count '|' = u.count '|' + i.count '|' + 1 := by
  simp [encodeReservation, List.count_append, List.count_cons]
  omega

theorem lookupKV_setKV_self {α : Type} (l : List (Chars × α)) (k : Chars)
    (v : α) : lookupKV (setKV l k v) k = some v := by
  simp [setKV, lookupKV]

theorem lookupKV_filter_keep {α : Type} (l : List (Chars × α))
    (p : Chars × α → Bool) (k : Chars) (hk : ∀ v, p (k, v) = true) :
    lookupKV (l.filter p) k = lookupKV l k := by
  induction l with
  | nil => rfl
  | cons kv rest ih =>
    by_cases hek : kv.1 = k
    · have hkv : p kv = true := by
        have h2 := hk kv.2
        rw [← hek] at h2
        simpa using h2

      simp [List.filter_cons, hkv, lookupKV, hek, ih]
    · cases hq : p kv with
      | true => simp [List.filter_cons, hq, lookupKV, hek, ih]
      | false => simp [List.filter_cons, hq, lookupKV, hek, ih]

theorem lookupKV_filter_drop {α : Type} (l : List (Chars × α))
    (p : Chars × α → Bool) (k : Chars) (hk : ∀ v, p (k, v) = false) :
    lookupKV (l.filter p) k = none := by
  induction l with
  | nil => rfl
  | cons kv rest ih =>
    by_cases hek : kv.1 = k
    · have hkv : p kv = false := by
        have h2 := hk kv.2
        rw [← hek] at h2
        simpa using h2

      simp [List.filter_cons, hkv, ih]
    · cases hq : p kv with
      | true => simp [List.filter_cons, hq, lookupKV, hek, ih]
      | false => simp [List.filter_cons, hq, ih]

theorem txfWrites_strs (st : RedisState) (userID itemID code : Chars)
    (expireAt : Int) :
    (txfWrites st userID itemID code expireAt).strs
      = setKV (setKV st.strs (keyItem itemID) code) (keyRes code)
          (encodeReservation userID itemID) := by
  simp [txfWrites, RedisState.zadd]

theorem createLoop_ok (u i code : Chars) (e : Int) :
    ∀ (n : Nat) (att : List (RedisState × Bool)) (st' : RedisState),
    createReservationLoop u i code e n att = .ok st' →
    ∃ st, txfCheck st u i = none ∧ st' = txfWrites st u i code e := by
  intro n
  induction n with
  | zero =>
    intro att st' h
    simp [createReservationLoop] at h
  | succ m ih =>
    intro att st' h
    cases att with
    | nil => simp [createReservationLoop] at h
    | cons a rest =>
      obtain ⟨st, cf⟩ := a
      simp only [createReservationLoop] at h
      cases htx : txfCheck st u i with
      | some msg => simp [createAttempt, htx] at h
      | none =>
        cases cf with
        | true =>
          simp only [createAttempt, htx, if_pos rfl] at h
          exact ih rest st' h
        | false =>
          simp [createAttempt, htx] at h
          exact ⟨st, htx, h.symm⟩

theorem getReservation_of_stored (st : RedisState) (code u i : Chars)
    (hu : '|' ∉ u) (hi : '|' ∉ i)
    (hst : lookupKV st.strs (keyRes code) = some (encodeReservation u i)) :
    redisGetReservation st code = .ok (u, i) := by
  have hsp : splitPipe (encodeReservation u i) = [u, i] := by
    rw [encodeReservation, splitPipe_append u i hu, splitPipe_no_pipe i hi]
  simp [redisGetReservation, hst, hsp]

theorem getReservation_format_error (st : RedisState) (code val : Chars)
    (hst : lookupKV st.strs (keyRes code) = some val)
    (hlen : (splitPipe val).length ≠ 2) :
    redisGetReservation st code = .error "invalid reservation data format" := by
  simp only [redisGetReservation, hst]
  cases hsp : splitPipe val with
  | nil => rfl
  | cons a as =>
    cases as with
    | nil => rfl
    | cons b bs =>
      cases bs with
      | nil => rw [hsp] at hlen; simp at hlen
      | cons c cs => rfl

theorem isPrefixOf_append_self (b y : Chars) :
    b.isPrefixOf (b ++ y) = true := by
  induction b with
  | nil => simp [List.isPrefixOf]
  | cons c cs ih => simp [List.isPrefixOf, ih]

theorem isPrefixOf_append_false (a : Chars) :
    ∀ (b : Chars), a.isPrefixOf b = false → b.isPrefixOf a = false →
    ∀ y, a.isPrefixOf (b ++ y) = false := by
  induction a with
  | nil =>
    intro b h1 _ _
    simp [List.isPrefixOf] at h1
  | cons x xs ih =>
    intro b h1 h2 y
    cases b with
    | nil => simp [List.isPrefixOf] at h2
    | cons z zs =>
      simp only [List.isPrefixOf, Bool.and_eq_false_imp, List.cons_append] at h1 h2 ⊢
      intro hxz
      have hzx : (z == x) = true := by
        rw [beq_iff_eq] at hxz ⊢
        exact hxz.symm
      exact ih zs (h1 hxz) (h2 hzx) y

theorem resetDeletes_keySold (itemID : Chars) :
    resetDeletes (keySold itemID) = false := by
  have h1 : (("reservations:user:").data).isPrefixOf (keySold itemID) = false :=
    isPrefixOf_append_false _ _ (by decide) (by decide) itemID
  have h2 : (("reservation:").data).isPrefixOf (keySold itemID) = false :=
    isPrefixOf_append_false _ _ (by decide) (by decide) itemID
  have h3 : (("item_reservation:").data).isPrefixOf (keySold itemID) = false :=
    isPrefixOf_append_false _ _ (by decide) (by decide) itemID
  have h4 : ¬ (keySold itemID = keyGlobal) := by
    intro h
    have h5 := isPrefixOf_append_self (("item_sold:").data) itemID
    rw [show ("item_sold:").data ++ itemID = keySold itemID from rfl, h] at h5
    exact absurd h5 (by decide)
  simp only [resetDeletes, resetPatterns, globMatch, List.any_cons,
    List.any_nil, h1, h2, h3, Bool.or_false, Bool.false_or]
  simp [h4]

theorem resetDeletes_keyPurchases (userID : Chars) :
    resetDeletes (keyPurchases userID) = false := by
  have h1 : (("reservations:user:").data).isPrefixOf (keyPurchases userID)
      = false :=
    isPrefixOf_append_false _ _ (by decide) (by decide) userID
  have h2 : (("reservation:").data).isPrefixOf (keyPurchases userID) = false :=
    isPrefixOf_append_false _ _ (by decide) (by decide) userID
  have h3 : (("item_reservation:").data).isPrefixOf (keyPurchases userID)
      = false :=
    isPrefixOf_append_false _ _ (by decide) (by decide) userID
  have h4 : ¬ (keyPurchases userID = keyGlobal) := by
    intro h
    have h5 := isPrefixOf_append_self (("user_purchases:").data) userID
    rw [show ("user_purchases:").data ++ userID = keyPurchases userID from rfl,
      h] at h5
    exact absurd h5 (by decide)
  simp only [resetDeletes, resetPatterns, globMatch, List.any_cons,
    List.any_nil, h1, h2, h3, Bool.or_false, Bool.false_or]
  simp [h4]

theorem resetDeletes_keyItem (itemID : Chars) :
    resetDeletes (keyItem itemID) = true := by
  have h := isPrefixOf_append_self (("item_reservation:").data) itemID
  simp [resetDeletes, resetPatterns, globMatch, keyItem, h]

theorem resetDeletes_keyRes (code : Chars) :
    resetDeletes (keyRes code) = true := by
  have h := isPrefixOf_append_self (("reservation:").data) code
  simp [resetDeletes, resetPatterns, globMatch, keyRes, h]

theorem resetDeletes_keyUser (userID : Chars) :
    resetDeletes (keyUser userID) = true := by
  have h := isPrefixOf_append_self (("reservations:user:").data) userID
  simp [resetDeletes, resetPatterns, globMatch, keyUser, h]

theorem pgFinalizeSales_eq (now : Int) (tbl : List SaleRow) :
    pgFinalizeSales now tbl =
      (sqlCountPending (truncateHour now - 3600) (truncateHour now) tbl,
       if sqlCountPending (truncateHour now - 3600) (truncateHour now) tbl
           = 10000
       then sqlConfirmPending (truncateHour now - 3600) (truncateHour now)
         now tbl
       else sqlDeletePending (truncateHour now - 3600) (truncateHour now)
         tbl) := by
  have he : truncateHour now - 3600 + 3600 = truncateHour now := by ring
  simp only [pgFinalizeSales, he]
  by_cases hc : sqlCountPending (truncateHour now - 3600) (truncateHour now)
      tbl = 10000
  · rw [if_pos hc, if_pos hc]
  · rw [if_neg hc, if_neg hc]

theorem pendingInWindow_confirmRow (s e now : Int) (r : SaleRow) :
    pendingInWindow s e (confirmRow now r) = false := by
  simp [pendingInWindow, confirmRow]

theorem finalize_result_no_pending (now : Int) (tbl : List SaleRow) :
    ∀ r ∈ (pgFinalizeSales now tbl).2,
      pendingInWindow (truncateHour now - 3600) (truncateHour now) r
        = false := by
  intro r hr
  rw [pgFinalizeSales_eq] at hr
  by_cases hc : sqlCountPending (truncateHour now - 3600) (truncateHour now)
      tbl = 10000
  · rw [if_pos hc] at hr
    simp only [sqlConfirmPending, List.mem_map] at hr
    obtain ⟨r0, _, rfl⟩ := hr
    by_cases hp : pendingInWindow (truncateHour now - 3600) (truncateHour now)
        r0 = true
    · simp [hp, pendingInWindow_confirmRow]
    · simp only [Bool.not_eq_true] at hp
      simp [hp]
  · rw [if_neg hc] at hr
    simp only [sqlDeletePending, List.mem_filter] at hr
    have h2 := hr.2
    simpa using h2

/-! ### Claim theorems -/

/-- Claim C4: `FinalizeSales` runs over the previous whole hour window
from `truncate_hour(now) - 1h` (inclusive) to `truncate_hour(now)`
(exclusive); it returns the pre-transition count of pending rows with
`purchased_at` in that window; when and only when that count equals
10000 it confirms exactly those rows with `committed_at` set to the
current time, otherwise it deletes exactly those rows; rows outside
the predicate are preserved and no pending row of the window
survives. -/
theorem c4_finalize_sales_window_semantics (now : Int) (tbl : List SaleRow) :
    truncateHour now - 3600 + 3600 = truncateHour now
    ∧ (pgFinalizeSales now tbl).1
        = sqlCountPending (truncateHour now - 3600) (truncateHour now) tbl
    ∧ ((pgFinalizeSales now tbl).1 = 10000 →
        (pgFinalizeSales now tbl).2
          = sqlConfirmPending (truncateHour now - 3600) (truncateHour now)
              now tbl)
    ∧ ((pgFinalizeSales now tbl).1 ≠ 10000 →
        (pgFinalizeSales now tbl).2
          = sqlDeletePending (truncateHour now - 3600) (truncateHour now) tbl)
    ∧ (∀ r ∈ tbl,
        pendingInWindow (truncateHour now - 3600) (truncateHour now) r = false
          → r ∈ (pgFinalizeSales now tbl).2)
    ∧ (∀ r ∈ tbl,
        pendingInWindow (truncateHour now - 3600) (truncateHour now) r = true
          → (pgFinalizeSales now tbl).1 = 10000
          → confirmRow now r ∈ (pgFinalizeSales now tbl).2)
    ∧ (∀ r ∈ (pgFinalizeSales now tbl).2,
        pendingInWindow (truncateHour now - 3600) (truncateHour now) r
          = false) := by
  refine ⟨by ring, ?_, ?_, ?_, ?_, ?_, finalize_result_no_pending now tbl⟩
  · rw [pgFinalizeSales_eq]
  · intro h
    rw [pgFinalizeSales_eq] at h ⊢
    simp only at h
    rw [if_pos h]
  · intro h
    rw [pgFinalizeSales_eq] at h ⊢
    simp only at h
    rw [if_neg h]
  · intro r hr hp
    rw [pgFinalizeSales_eq]
    by_cases hc : sqlCountPending (truncateHour now - 3600) (truncateHour now)
        tbl = 10000
    · rw [if_pos hc]
      have hm := List.mem_map_of_mem
        (fun r => if pendingInWindow (truncateHour now - 3600)
          (truncateHour now) r then confirmRow now r else r) hr
      simpa [sqlConfirmPending, hp] using hm
    · rw [if_neg hc]
      exact List.mem_filter.mpr ⟨hr, by simp [hp]⟩
  · intro r hr hp hc
    rw [pgFinalizeSales_eq] at hc ⊢
    simp only at hc
    rw [if_pos hc]
    have hm := List.mem_map_of_mem
      (fun r => if pendingInWindow (truncateHour now - 3600)
        (truncateHour now) r then confirmRow now r else r) hr
    simpa [sqlConfirmPending, hp] using hm

/-- Witness for C4 at a concrete input: one pending row in the window
of `now = 7200`, count 1 ≠ 10000, so the deletion branch runs. -/
theorem c4_witness :
    (pgFinalizeSales 7200 [SaleRow.mk [] [] SaleStatus.pending 3600 none]).1
        ≠ 10000
    ∧ (pgFinalizeSales 7200 [SaleRow.mk [] [] SaleStatus.pending 3600 none]).2
        = sqlDeletePending (truncateHour 7200 - 3600) (truncateHour 7200)
            [SaleRow.mk [] [] SaleStatus.pending 3600 none] :=
  ⟨by decide,
   (c4_finalize_sales_window_semantics 7200
      [SaleRow.mk [] [] SaleStatus.pending 3600 none]).2.2.2.1 (by decide)⟩

/-- Claim C7: a second `FinalizeSales` over the same (already
finalized) window returns 0 and leaves the sales table unchanged. -/
theorem c7_finalize_idempotent (now now' : Int) (tbl : List SaleRow)
    (h : truncateHour now' = truncateHour now) :
    pgFinalizeSales now' (pgFinalizeSales now tbl).2
      = (0, (pgFinalizeSales now tbl).2) := by
  have hnp := finalize_result_no_pending now tbl
  have hcnt : sqlCountPending (truncateHour now' - 3600) (truncateHour now')
      (pgFinalizeSales now tbl).2 = 0 := by
    rw [h]
    simp only [sqlCountPending, List.length_eq_zero, List.filter_eq_nil_iff]
    intro r hr
    simp [hnp r hr]
  have hdel : sqlDeletePending (truncateHour now' - 3600) (truncateHour now')
      (pgFinalizeSales now tbl).2 = (pgFinalizeSales now tbl).2 := by
    rw [h]
    apply List.filter_eq_self.mpr
    intro r hr
    simp [hnp r hr]
  rw [pgFinalizeSales_eq, hcnt, hdel]
  norm_num

/-- Witness for C7 at a concrete input: finalize at 7200 over one
pending row, then finalize again at 7201 (same window). -/
theorem c7_witness :
    truncateHour 7201 = truncateHour 7200
    ∧ pgFinalizeSales 7201
        (pgFinalizeSales 7200
          [SaleRow.mk [] [] SaleStatus.pending 3600 none]).2
      = (0, (pgFinalizeSales 7200
          [SaleRow.mk [] [] SaleStatus.pending 3600 none]).2) :=
  ⟨by decide,
   c7_finalize_idempotent 7200 7201
     [SaleRow.mk [] [] SaleStatus.pending 3600 none] (by decide)⟩

/-- Claim C9: `ResetAllReservations` removes exactly the transient
reservation keys — item locks (`item_reservation:` prefix),
reservation records (`reservation:` prefix), per-user sets
(`reservations:user:` prefix) and the global set
`reservations:global` — and preserves the value of every sold marker
(`item_sold:` prefix) and every user purchase counter
(`user_purchases:` prefix). -/
theorem c9_reset_preserves_sold_and_counters (st : RedisState) :
    (∀ itemID, lookupKV (redisResetAllReservations st).strs (keySold itemID)
        = lookupKV st.strs (keySold itemID))
    ∧ (∀ userID,
        lookupKV (redisResetAllReservations st).ints (keyPurchases userID)
          = lookupKV st.ints (keyPurchases userID))
    ∧ (∀ k, resetDeletes k = false →
        lookupKV (redisResetAllReservations st).strs k = lookupKV st.strs k
        ∧ lookupKV (redisResetAllReservations st).zsets k
            = lookupKV st.zsets k
        ∧ lookupKV (redisResetAllReservations st).ints k
            = lookupKV st.ints k)
    ∧ (∀ k, resetDeletes k = true →
        lookupKV (redisResetAllReservations st).strs k = none
        ∧ lookupKV (redisResetAllReservations st).zsets k = none
        ∧ lookupKV (redisResetAllReservations st).ints k = none)
    ∧ (∀ itemID, resetDeletes (keyItem itemID) = true)
    ∧ (∀ code, resetDeletes (keyRes code) = true)
    ∧ (∀ userID, resetDeletes (keyUser userID) = true)
    ∧ resetDeletes keyGlobal = true
    ∧ (∀ itemID, resetDeletes (keySold itemID) = false)
    ∧ (∀ userID, resetDeletes (keyPurchases userID) = false) := by
  refine ⟨?_, ?_, ?_, ?_, resetDeletes_keyItem, resetDeletes_keyRes,
    resetDeletes_keyUser, by decide, resetDeletes_keySold,
    resetDeletes_keyPurchases⟩
  · intro itemID
    exact lookupKV_filter_keep _ _ _
      (fun v => by simp [resetDeletes_keySold itemID])
  · intro userID
    exact lookupKV_filter_keep _ _ _
      (fun v => by simp [resetDeletes_keyPurchases userID])
  · intro k hk
    exact ⟨lookupKV_filter_keep _ _ _ (fun v => by simp [hk]),
      lookupKV_filter_keep _ _ _ (fun v => by simp [hk]),
      lookupKV_filter_keep _ _ _ (fun v => by simp [hk])⟩
  · intro k hk
    exact ⟨lookupKV_filter_drop _ _ _ (fun v => by simp [hk]),
      lookupKV_filter_drop _ _ _ (fun v => by simp [hk]),
      lookupKV_filter_drop _ _ _ (fun v => by simp [hk])⟩

/-- Witness for C9 at a concrete keyspace holding one key of each
kind: the sold marker and the purchase counter survive the reset with
their values, the transient keys are gone. -/
theorem c9_witness :
    resetDeletes (keyItem ("i1").data) = true
    ∧ lookupKV (redisResetAllReservations
        (RedisState.mk
          [(keySold ("i1").data, ("sold").data),
           (keyItem ("i1").data, ("c1").data)]
          [(keyGlobal, [(30, ("c1").data)])]
          [(keyPurchases ("u1").data, 7)])).strs (keySold ("i1").data)
      = lookupKV (RedisState.mk
          [(keySold ("i1").data, ("sold").data),
           (keyItem ("i1").data, ("c1").data)]
          [(keyGlobal, [(30, ("c1").data)])]
          [(keyPurchases ("u1").data, 7)]).strs (keySold ("i1").data)
    ∧ lookupKV (redisResetAllReservations
        (RedisState.mk
          [(keySold ("i1").data, ("sold").data),
           (keyItem ("i1").data, ("c1").data)]
          [(keyGlobal, [(30, ("c1").data)])]
          [(keyPurchases ("u1").data, 7)])).strs (keyItem ("i1").data)
      = none :=
  ⟨(c9_reset_preserves_sold_and_counters RedisState.empty).2.2.2.2.1
      (("i1").data),
   (c9_reset_preserves_sold_and_counters
      (RedisState.mk
        [(keySold ("i1").data, ("sold").data),
         (keyItem ("i1").data, ("c1").data)]
        [(keyGlobal, [(30, ("c1").data)])]
        [(keyPurchases ("u1").data, 7)])).1 (("i1").data),
   ((c9_reset_preserves_sold_and_counters
      (RedisState.mk
        [(keySold ("i1").data, ("sold").data),
         (keyItem ("i1").data, ("c1").data)]
        [(keyGlobal, [(30, ("c1").data)])]
        [(keyPurchases ("u1").data, 7)])).2.2.2.1
      (keyItem ("i1").data) (by decide)).1⟩

/-- Counterexample to claim C8 as stated: the reservation created for
user id `a|b` and item id `c` is live (its record is stored and the
create call succeeded), yet `GetReservation` does not return the pair
— it fails with the format error, because the stored value
`a|b|c` splits into three fields. -/
theorem c8_counterexample :
    redisCreateReservation (("a|b").data) (("c").data) (("cd").data) 15
        [(RedisState.empty, false)]
      = .ok (txfWrites RedisState.empty (("a|b").data) (("c").data)
          (("cd").data) 15)
    ∧ redisGetReservation
        (txfWrites RedisState.empty (("a|b").data) (("c").data)
          (("cd").data) 15) (("cd").data)
      = .error "invalid reservation data format" := by
  constructor
  · rfl
  · rfl

/-- Claim C8 (amended): provided neither id contains the `|`
separator, a successful `CreateReservation` stores a record that
`GetReservation` resolves back to exactly the original
`(user_id, item_id)` pair while the record is live; and in every
state, a successful `GetReservation` on a code whose stored record is
the encoding of `(u, i)` can only return `(u, i)` — never a different
pair. -/
theorem c8_roundtrip_pipe_free :
    (∀ (userID itemID code : Chars) (expireAt : Int)
        (attempts : List (RedisState × Bool)) (st' : RedisState),
      '|' ∉ userID → '|' ∉ itemID →
      redisCreateReservation userID itemID code expireAt attempts = .ok st' →
      redisGetReservation st' code = .ok (userID, itemID))
    ∧ (∀ (st : RedisState) (userID itemID code u' i' : Chars),
        lookupKV st.strs (keyRes code)
          = some (encodeReservation userID itemID) →
        redisGetReservation st code = .ok (u', i') →
        u' = userID ∧ i' = itemID) := by
  constructor
  · intro userID itemID code expireAt attempts st' hu hi hok
    obtain ⟨st, _, rfl⟩ := createLoop_ok userID itemID code expireAt 3
      attempts st' hok
    have hst : lookupKV (txfWrites st userID itemID code expireAt).strs
        (keyRes code) = some (encodeReservation userID itemID) := by
      rw [txfWrites_strs]
      exact lookupKV_setKV_self _ _ _
    exact getReservation_of_stored _ _ _ _ hu hi hst
  · intro st userID itemID code u' i' hst hok
    by_cases hu : '|' ∈ userID
    · exfalso
      have hlen : (splitPipe (encodeReservation userID itemID)).length ≠ 2 := by
        rw [splitPipe_length, encodeReservation_count]
        have := List.count_pos_iff.mpr hu
        omega
      rw [getReservation_format_error st code _ hst hlen] at hok
      exact Except.noConfusion hok
    · by_cases hi : '|' ∈ itemID
      · exfalso
        have hlen : (splitPipe (encodeReservation userID itemID)).length ≠ 2 := by
          rw [splitPipe_length, encodeReservation_count]
          have := List.count_pos_iff.mpr hi
          omega
        rw [getReservation_format_error st code _ hst hlen] at hok
        exact Except.noConfusion hok
      · rw [getReservation_of_stored st code userID itemID hu hi hst] at hok
        have h2 := Except.ok.inj hok
        exact ⟨(congrArg Prod.fst h2).symm, (congrArg Prod.snd h2).symm⟩

/-- Witness for C8 (amended): a pipe-free reservation round-trips. -/
theorem c8_witness :
    ('|' ∉ (("u1").data : Chars))
    ∧ redisGetReservation
        (txfWrites RedisState.empty (("u1").data) (("i1").data)
          (("cd").data) 15) (("cd").data)
      = .ok ((("u1").data), (("i1").data)) :=
  ⟨by decide,
   c8_roundtrip_pipe_free.1 (("u1").data) (("i1").data) (("cd").data) 15
     [(RedisState.empty, false)]
     (txfWrites RedisState.empty (("u1").data) (("i1").data)
       (("cd").data) 15)
     (by decide) (by decide) rfl⟩

/-- Claim C10: `GetReservation` fails with the format error whenever
the stored value does not split on `|` into exactly two fields; in
particular a reservation created with a user id or item id containing
`|` can never be resolved successfully while it is live. -/
theorem c10_pipe_ids_unresolvable :
    (∀ (st : RedisState) (code val : Chars),
      lookupKV st.strs (keyRes code) = some val →
      (splitPipe val).length ≠ 2 →
      redisGetReservation st code
        = .error "invalid reservation data format")
    ∧ (∀ (userID itemID code : Chars) (expireAt : Int)
        (attempts : List (RedisState × Bool)) (st' : RedisState),
      ('|' ∈ userID ∨ '|' ∈ itemID) →
      redisCreateReservation userID itemID code expireAt attempts = .ok st' →
      redisGetReservation st' code
        = .error "invalid reservation data format") := by
  constructor
  · exact getReservation_format_error
  · intro userID itemID code expireAt attempts st' hmem hok
    obtain ⟨st, _, rfl⟩ := createLoop_ok userID itemID code expireAt 3
      attempts st' hok
    have hst : lookupKV (txfWrites st userID itemID code expireAt).strs
        (keyRes code) = some (encodeReservation userID itemID) := by
      rw [txfWrites_strs]
      exact lookupKV_setKV_self _ _ _
    apply getReservation_format_error _ _ _ hst
    rw [splitPipe_length, encodeReservation_count]
    rcases hmem with h | h
    · have := List.count_pos_iff.mpr h
      omega
    · have := List.count_pos_iff.mpr h
      omega

/-- Witness for C10: a live reservation whose item id contains `|`
resolves to the format error. -/
theorem c10_witness :
    (('|' ∈ (("x").data : Chars)) ∨ '|' ∈ (("y|z").data : Chars))
    ∧ redisGetReservation
        (txfWrites RedisState.empty (("x").data) (("y|z").data)
          (("k1").data) 15) (("k1").data)
      = .error "invalid reservation data format" :=
  ⟨by decide,
   c10_pipe_ids_unresolvable.2 (("x").data) (("y|z").data) (("k1").data) 15
     [(RedisState.empty, false)]
     (txfWrites RedisState.empty (("x").data) (("y|z").data)
       (("k1").data) 15)
     (by decide) rfl⟩

/-- Counterexample to claim C5 as stated: the transaction's check
phase reads the per-user set key (and the global set key), yet
neither is among the keys passed to `Watch` — two keyspaces that
differ only at the unwatched per-user set give different check
outcomes, so the checks do not run under observation of every key
they read. -/
theorem c5_counterexample :
    keyUser (("u1").data) ∈ readKeys (("u1").data) (("i1").data)
    ∧ keyUser (("u1").data) ∉ watchedKeys (("u1").data) (("i1").data)
    ∧ keyGlobal ∈ readKeys (("u1").data) (("i1").data)
    ∧ keyGlobal ∉ watchedKeys (("u1").data) (("i1").data)
    ∧ txfCheck
        (RedisState.mk []
          [(keyUser (("u1").data),
            List.replicate 10 ((0 : Int), ([] : Chars)))] [])
        (("u1").data) (("i1").data)
      = some "concurrent reservation limit exceeded for this user"
    ∧ txfCheck RedisState.empty (("u1").data) (("i1").data) = none
    ∧ (RedisState.mk []
        [(keyUser (("u1").data),
          List.replicate 10 ((0 : Int), ([] : Chars)))] []).strs
      = RedisState.empty.strs
    ∧ (RedisState.mk []
        [(keyUser (("u1").data),
          List.replicate 10 ((0 : Int), ([] : Chars)))] []).ints
      = RedisState.empty.ints := by
  refine ⟨by decide, by decide, by decide, by decide, by decide, rfl,
    rfl, rfl⟩

/-- Claim C5 (amended): `CreateReservation` fails with the
corresponding domain error when the sold-marker, item-lock, global
cardinality, user purchase-counter or user cardinality check fails
(in that order); on a conflict-free attempt with all checks passing
it commits the five writes; after three conflicted attempts it fails
with the retries-exhausted message; and the `Watch` set is only the
item lock, the sold marker and the user purchase counter — not the
global or per-user sorted sets the checks read. -/
theorem c5_checks_and_retries (userID itemID code : Chars) (expireAt : Int) :
    watchedKeys userID itemID
        = [keyItem itemID, keySold itemID, keyPurchases userID]
    ∧ (∀ (st : RedisState) (b : Bool) (rest : List (RedisState × Bool)),
        st.existsStr (keySold itemID) = true →
        redisCreateReservation userID itemID code expireAt ((st, b) :: rest)
          = .error "item has already been sold")
    ∧ (∀ (st : RedisState) (b : Bool) (rest : List (RedisState × Bool)),
        st.existsStr (keySold itemID) = false →
        st.existsStr (keyItem itemID) = true →
        redisCreateReservation userID itemID code expireAt ((st, b) :: rest)
          = .error "item already reserved")
    ∧ (∀ (st : RedisState) (b : Bool) (rest : List (RedisState × Bool)),
        st.existsStr (keySold itemID) = false →
        st.existsStr (keyItem itemID) = false →
        st.zcard keyGlobal ≥ 10000 →
        redisCreateReservation userID itemID code expireAt ((st, b) :: rest)
          = .error "sale completed, items sold out")
    ∧ (∀ (st : RedisState) (b : Bool) (rest : List (RedisState × Bool)),
        st.existsStr (keySold itemID) = false →
        st.existsStr (keyItem itemID) = false →
        st.zcard keyGlobal < 10000 →
        st.getInt (keyPurchases userID) ≥ 10 →
        redisCreateReservation userID itemID code expireAt ((st, b) :: rest)
          = .error "purchase limit of 10 items exceeded for this user")
    ∧ (∀ (st : RedisState) (b : Bool) (rest : List (RedisState × Bool)),
        st.existsStr (keySold itemID) = false →
        st.existsStr (keyItem itemID) = false →
        st.zcard keyGlobal < 10000 →
        st.getInt (keyPurchases userID) < 10 →
        st.zcard (keyUser userID) ≥ 10 →
        redisCreateReservation userID itemID code expireAt ((st, b) :: rest)
          = .error "concurrent reservation limit exceeded for this user")
    ∧ (∀ (st : RedisState) (rest : List (RedisState × Bool)),
        txfCheck st userID itemID = none →
        redisCreateReservation userID itemID code expireAt
          ((st, false) :: rest)
          = .ok (txfWrites st userID itemID code expireAt))
    ∧ (∀ (st1 st2 st3 : RedisState) (rest : List (RedisState × Bool)),
        txfCheck st1 userID itemID = none →
        txfCheck st2 userID itemID = none →
        txfCheck st3 userID itemID = none →
        redisCreateReservation userID itemID code expireAt
          ((st1, true) :: (st2, true) :: (st3, true) :: rest)
          = .error "item reservation failed after retries") := by
  refine ⟨rfl, ?_, ?_, ?_, ?_, ?_, ?_, ?_⟩
  · intro st b rest h1
    have hc : txfCheck st userID itemID = some "item has already been sold" := by
      simp [txfCheck, h1]
    simp [redisCreateReservation, createReservationLoop, createAttempt, hc]
  · intro st b rest h1 h2
    have hc : txfCheck st userID itemID = some "item already reserved" := by
      simp [txfCheck, h1, h2]
    simp [redisCreateReservation, createReservationLoop, createAttempt, hc]
  · intro st b rest h1 h2 h3
    have hc : txfCheck st userID itemID
        = some "sale completed, items sold out" := by
      simp [txfCheck, h1, h2, h3]
    simp [redisCreateReservation, createReservationLoop, createAttempt, hc]
  · intro st b rest h1 h2 h3 h4
    have hc : txfCheck st userID itemID
        = some "purchase limit of 10 items exceeded for this user" := by
      simp [txfCheck, h1, h2, Nat.not_le.mpr h3, h4]
    simp [redisCreateReservation, createReservationLoop, createAttempt, hc]
  · intro st b rest h1 h2 h3 h4 h5
    have hc : txfCheck st userID itemID
        = some "concurrent reservation limit exceeded for this user" := by
      simp [txfCheck, h1, h2, Nat.not_le.mpr h3, Int.not_le.mpr h4, h5]
    simp [redisCreateReservation, createReservationLoop, createAttempt, hc]
  · intro st rest hc
    simp [redisCreateReservation, createReservationLoop, createAttempt, hc]
  · intro st1 st2 st3 rest hc1 hc2 hc3
    simp [redisCreateReservation, createReservationLoop, createAttempt,
      hc1, hc2, hc3]

/-- Witness for C5 (amended): with a sold marker present the call
fails with the already-sold message. -/
theorem c5_witness :
    (RedisState.mk [(keySold ("i1").data, ("sold").data)] [] []).existsStr
        (keySold ("i1").data) = true
    ∧ redisCreateReservation (("u1").data) (("i1").data) (("cd").data) 15
        [(RedisState.mk [(keySold ("i1").data, ("sold").data)] [] [], false)]
      = .error "item has already been sold" :=
  ⟨by decide,
   (c5_checks_and_retries (("u1").data) (("i1").data) (("cd").data) 15).2.1
     (RedisState.mk [(keySold ("i1").data, ("sold").data)] [] [])
     false [] (by decide)⟩

/-- Claim C1 (code bug evaluated at the failing input): after a
finalization run whose `FinalizeSales` result is exactly 10000, the
service's `saleCompleted` flag is false — `SetSaleCompleted(true)` is
immediately overwritten by `Status.Reset`, which stores 0 into the
flag word — so the status endpoint reports "active" and a subsequent
`CreateReservation` is not rejected as sold out. -/
theorem c1_finalize_clears_sale_completed (st : Status) (kv : RedisState)
    (ctx : GoCtx) (userID itemID code : Chars) :
    svcFinalizeSales (.ok 10000) st kv
        = .ok (Status.init, redisResetAllReservations kv)
    ∧ ((st.setSaleCompleted ((10000 : Nat) == 10000)).saleCompleted = true)
    ∧ (svcFinalizeSales (.ok 10000) st kv).map
        (fun p => p.1.saleCompleted) = .ok false
    ∧ (svcFinalizeSales (.ok 10000) st kv).map
        (fun p => p.1.saleStatusText) = .ok "active"
    ∧ (svcCreateReservation ctx ((st.setSaleCompleted true).reset)
        userID itemID code none none).1 = .ok code := by
  refine ⟨?_, rfl, ?_, ?_, rfl⟩
  · simp [svcFinalizeSales, Status.setSaleCompleted, Status.reset, Status.init]
  · simp [svcFinalizeSales, Status.setSaleCompleted, Status.reset,
      Except.map]
  · simp [svcFinalizeSales, Status.setSaleCompleted, Status.reset,
      Status.saleStatusText, Status.isSaleCompleted, Except.map]

/-- Claim C2 (code bug evaluated at the failing input): the
user-total-limit error message produced by the Redis repository is
not the constant the checkout handler's switch compares against, so
that error is mapped to 500 with the internal-server body instead of
400; the four other domain messages are mapped to 400, and unknown
errors to 500. -/
theorem c2_total_limit_maps_to_500 :
    txfCheck (RedisState.mk [] [] [(keyPurchases ("u1").data, 10)])
        (("u1").data) (("i1").data) = some msgUserTotalLimit
    ∧ msgUserTotalLimit ≠ errPurchaseLimitExceeded
    ∧ checkoutErrorResponse msgUserTotalLimit = (500, errInternalServer)
    ∧ checkoutErrorResponse errItemReserved = (400, errItemReserved)
    ∧ checkoutErrorResponse errSaleSoldOut = (400, errSaleSoldOut)
    ∧ checkoutErrorResponse errItemAlreadySold = (400, errItemAlreadySold)
    ∧ checkoutErrorResponse errPurchaseLimitExceeded
        = (400, errPurchaseLimitExceeded)
    ∧ checkoutErrorResponse errConcurrentReservationExceeded
        = (400, errConcurrentReservationExceeded)
    ∧ checkoutErrorResponse "redis error: connection refused"
        = (500, errInternalServer) := by
  refine ⟨by decide, by decide, by decide, by decide, by decide, by decide,
    by decide, by decide, by decide⟩

/-- Counterexample to claim C3 as stated: with a cancelled request
context and a failing `SaveCheckoutAttempt`, the compensating
`DeleteReservation` is invoked with that same cancelled context — no
call in the trace carries a fresh, uncancelled context. -/
theorem c3_counterexample :
    (svcCreateReservation (GoCtx.mk true) Status.init (("u1").data)
        (("i1").data) (("cd").data) none (some "db down")).1
      = .error "failed to save checkout attempt: db down"
    ∧ Call.redisDelete (GoCtx.mk true) (("u1").data) (("i1").data)
        (("cd").data)
      ∈ (svcCreateReservation (GoCtx.mk true) Status.init (("u1").data)
        (("i1").data) (("cd").data) none (some "db down")).2
    ∧ Call.redisDelete (GoCtx.mk false) (("u1").data) (("i1").data)
        (("cd").data)
      ∉ (svcCreateReservation (GoCtx.mk true) Status.init (("u1").data)
        (("i1").data) (("cd").data) none (some "db down")).2 := by
  refine ⟨rfl, by decide, by decide⟩

/-- Claim C3 (amended): when `SaveCheckoutAttempt` fails after the
Redis reservation succeeded, the coordinator invokes
`DeleteReservation` as compensation (last in the trace, its result
discarded) and returns an error — but the compensating call receives
the request's own context unchanged, not a fresh bounded deadline, so
it is not shielded from the request's cancellation. -/
theorem c3_compensation_uses_request_context (ctx : GoCtx) (st : Status)
    (userID itemID code : Chars) (e : String)
    (h : st.isSaleCompleted = false) :
    (svcCreateReservation ctx st userID itemID code none (some e)).1
        = .error ("failed to save checkout attempt: " ++ e)
    ∧ (svcCreateReservation ctx st userID itemID code none (some e)).2
        = [Call.redisCreate ctx userID itemID code,
           Call.pgSave ctx userID itemID code,
           Call.redisDelete ctx userID itemID code] := by
  constructor
  · simp [svcCreateReservation, h]
  · simp [svcCreateReservation, h]

/-- Witness for C3 (amended) at a concrete cancelled context. -/
theorem c3_witness :
    (Status.init).isSaleCompleted = false
    ∧ (svcCreateReservation (GoCtx.mk true) Status.init (("u2").data)
        (("i2").data) (("k2").data) none (some "boom")).2
      = [Call.redisCreate (GoCtx.mk true) (("u2").data) (("i2").data)
           (("k2").data),
         Call.pgSave (GoCtx.mk true) (("u2").data) (("i2").data)
           (("k2").data),
         Call.redisDelete (GoCtx.mk true) (("u2").data) (("i2").data)
           (("k2").data)] :=
  ⟨by decide,
   (c3_compensation_uses_request_context (GoCtx.mk true) Status.init
     (("u2").data) (("i2").data) (("k2").data) "boom" (by decide)).2⟩

/-- Claim C6: in the purchase protocol the K/V `DeleteReservation`
strictly precedes the DB `ProcessPurchase` write in every execution
trace, and whenever the delete fails the coordinator returns an error
and the DB state (sales and checkout_attempts) is unchanged, with no
DB purchase call in the trace. -/
theorem c6_delete_before_db_write (ctx : GoCtx) (code userID itemID : Chars)
    (e : String) (pgResult : Option String) (now : Int) (db : DbState) :
    (svcProcessPurchase ctx code (.ok (userID, itemID)) (some e) pgResult
        now db).1
      = .error ("failed to delete reservation: " ++ e)
    ∧ (svcProcessPurchase ctx code (.ok (userID, itemID)) (some e) pgResult
        now db).2.1 = db
    ∧ (svcProcessPurchase ctx code (.ok (userID, itemID)) (some e) pgResult
        now db).2.2.any Call.isPgPurchase = false
    ∧ (∀ (getResult : Except String (Chars × Chars))
        (delResult pgResult2 : Option String),
      delBeforePg (svcProcessPurchase ctx code getResult delResult pgResult2
        now db).2.2 = true) := by
  refine ⟨rfl, rfl, ?_, ?_⟩
  · simp [svcProcessPurchase, Call.isPgPurchase, Call.isRedisDelete]
  · intro getResult delResult pgResult2
    match getResult with
    | .error msg =>
      simp [svcProcessPurchase, delBeforePg, Call.isPgPurchase,
        Call.isRedisDelete]
    | .ok (u, i) =>
      match delResult with
      | some msg =>
        simp [svcProcessPurchase, delBeforePg, Call.isPgPurchase,
          Call.isRedisDelete]
      | none =>
        match pgResult2 with
        | some msg =>
          simp [svcProcessPurchase, delBeforePg, Call.isPgPurchase,
            Call.isRedisDelete]
        | none =>
          simp [svcProcessPurchase, delBeforePg, Call.isPgPurchase,
            Call.isRedisDelete]
